import Mathlib

/-!
Shallow embedding of the BeamNG-Map-Generator frontend core
(`src/App.tsx`, plus the alternate `main.ts`/`map.ts` frontend).

Coordinates are JavaScript numbers used only through `min`, `max` and
comparisons, so they are embedded as exact rationals (`ℚ`); NaN never
arises from map-click coordinates and is not modelled.

The React `useState` cells of a component are gathered into a state
structure, and every event handler becomes a pure function from the old
state (plus the event datum) to the new state, together with the values
it sends outward (the `onBoundsChange` emission, the issued backend
command, the shown alert).
-/

/-- A map click point `{lat, lng}` as delivered by the map widget. -/
structure Point where
  lat : ℚ
  lng : ℚ
deriving DecidableEq, Repr

/-- The `BoundingBox` interface of `App.tsx` (lines 10-15). -/
structure BoundingBox where
  min_lat : ℚ
  min_lng : ℚ
  max_lat : ℚ
  max_lng : ℚ
deriving DecidableEq, Repr

/-- The `GenerationProgress` interface of `App.tsx` (lines 17-20). -/
structure GenerationProgress where
  stage : String
  progress : ℚ
deriving DecidableEq, Repr

/-- The two `useState` cells of `MapSelector`: `selectionStart` and
`selectionEnd`, each a `[number, number] | null`.  An array value is
always truthy in JavaScript, so `!selectionStart` is exactly
`selectionStart = none`. -/
structure SelectorState where
  selectionStart : Option Point
  selectionEnd : Option Point
deriving DecidableEq, Repr

/-- The bounding box built on the second click (`App.tsx` lines 34-39):
element-wise `Math.min` / `Math.max` of the captured first point and the
clicked point. -/
def mkBoundingBox (p0 p : Point) : BoundingBox :=
  { min_lat := min p0.lat p.lat
    min_lng := min p0.lng p.lng
    max_lat := max p0.lat p.lat
    max_lng := max p0.lng p.lng }

/-- The `click` handler of `MapEvents` (`App.tsx` lines 28-42).  Returns
the new selector state and the bounding box passed to `onBoundsChange`,
when one is emitted:
* `selectionStart` null: capture the first point, no emission;
* `selectionStart` set, `selectionEnd` null: capture the second point,
  build the box and emit it once;
* both set: the click does nothing. -/
def mapClick (s : SelectorState) (p : Point) : SelectorState × Option BoundingBox :=
  match s.selectionStart with
  | none => ({ s with selectionStart := some p }, none)
  | some p0 =>
    match s.selectionEnd with
    | none => ({ s with selectionEnd := some p }, some (mkBoundingBox p0 p))
    | some _ => (s, none)

/-- `resetSelection` (`App.tsx` lines 47-50): both cells are set back to
null, whatever the current state is. -/
def resetSelection (_s : SelectorState) : SelectorState :=
  { selectionStart := none, selectionEnd := none }

/-- The `useState` cells of `App` (`App.tsx` lines 86-93): the selected
`bbox`, the `outputPath` string (`''` meaning none chosen), the
`isGenerating` flag, the latest `progress` record and the terminal
`result` string (`''` meaning no outcome yet; a failure outcome carries
the `Ошибка` marker prefix). -/
structure AppState where
  bbox : Option BoundingBox
  outputPath : String
  isGenerating : Bool
  progress : GenerationProgress
  result : String
deriving DecidableEq, Repr

/-- The backend command issued by `invoke` (`App.tsx` lines 127-130):
the command name and its `{bbox, outputPath}` arguments. -/
structure InvokeCmd where
  cmd : String
  bbox : BoundingBox
  outputPath : String
deriving DecidableEq, Repr

/-- The synchronous prefix of `generateTerrain` (`App.tsx` lines
117-130), up to the point where control returns to the event loop.
Returns the new app state, the command issued to the backend (if any),
and whether the precondition alert was shown.  `!bbox || !outputPath`
holds exactly when `bbox` is null or `outputPath` is the empty string;
in that case an alert is shown, nothing is invoked, and the state is
untouched.  Otherwise `isGenerating` is set, the prior `result` is
cleared, and exactly one `generate_terrain` command is issued. -/
def generateTerrainStart (s : AppState) : AppState × Option InvokeCmd × Bool :=
  match s.bbox with
  | none => (s, none, true)
  | some b =>
    if s.outputPath = "" then (s, none, true)
    else ({ s with isGenerating := true, result := "" },
          some { cmd := "generate_terrain", bbox := b, outputPath := s.outputPath },
          false)

/-- The resumption of `generateTerrain` when the `invoke` promise
settles (`App.tsx` lines 131-136): on resolution the response string is
stored in `result`; on rejection `result` becomes the stringified error
under the `Ошибка: ` marker; the `finally` clause clears `isGenerating`
in both cases. -/
def generateTerrainSettle (s : AppState) (r : Except String String) : AppState :=
  match r with
  | .ok response => { s with result := response, isGenerating := false }
  | .error e => { s with result := "Ошибка: " ++ e, isGenerating := false }

/-- The `disabled` expression of the generate button (`App.tsx` line
173): `!bbox || !outputPath || isGenerating`. -/
def generateButtonDisabled (s : AppState) : Bool :=
  s.bbox.isNone || s.outputPath == "" || s.isGenerating

/-- The `generation-progress` listener body (`App.tsx` lines 96-98):
`setProgress(event.payload)` — only the `progress` cell is written. -/
def onGenerationProgress (s : AppState) (p : GenerationProgress) : AppState :=
  { s with progress := p }

/-- A JavaScript value as produced by `JSON.parse` (plus booleans,
arrays and objects); numbers are embedded as exact rationals and NaN is
not modelled, since the payloads of interest carry ordinary progress
percentages. -/
inductive JsValue where
  | null
  | bool (b : Bool)
  | num (q : ℚ)
  | str (s : String)
  | arr (elems : List JsValue)
  | obj (fields : List (String × JsValue))
deriving Repr

/-- JavaScript truthiness of a value (NaN excluded as above). -/
def jsTruthy : JsValue → Bool
  | .null => false
  | .bool b => b
  | .num q => decide (q ≠ 0)
  | .str s => decide (s ≠ "")
  | .arr _ => true
  | .obj _ => true

/-- Property access `v.k`: `some` is the found field, `none` is
JavaScript `undefined` (missing field, or access on a non-object). -/
def jsField : JsValue → String → Option JsValue
  | .obj fields, k => fields.lookup k
  | _, _ => none

/-- The `a || d` pattern applied to a property access: `undefined` or a
falsy value falls back to the default. -/
def jsOrDefault (o : Option JsValue) (d : JsValue) : JsValue :=
  match o with
  | none => d
  | some v => if jsTruthy v then v else d

/-- Template-literal display of a value.  Only numbers and strings
occur in the positions the handlers interpolate; composite values are
displayed approximately and no theorem depends on them. -/
def jsDisplay : JsValue → String
  | .null => "null"
  | .bool b => toString b
  | .num q => toString q
  | .str s => s
  | .arr _ => ""
  | .obj _ => "[object Object]"

/-- Modelled from the spec: the typed decode at the progress-channel
boundary.  `App.tsx` subscribes with `listen<GenerationProgress>` and
the decode of the raw payload into the `GenerationProgress` shape (a
string `stage` and a numeric `progress`) happens inside the event
layer, which is not among the shown sources; per the spec, payloads
undecodable as `GenerationProgress` are dropped at this boundary. -/
def decodeGenerationProgress (v : JsValue) : Option GenerationProgress :=
  match jsField v "stage", jsField v "progress" with
  | some (.str st), some (.num p) => some { stage := st, progress := p }
  | _, _ => none

/-- One delivery on the `generation-progress` channel seen from the
`App` state: an undecodable payload is dropped with no state change; a
decoded record is handed to the listener body, which only writes the
`progress` cell. -/
def appProgressEvent (s : AppState) (payload : JsValue) : AppState :=
  match decodeGenerationProgress payload with
  | none => s
  | some p => onGenerationProgress s p

/-- The body of the `bng_progress` listener of the alternate frontend
(`main.ts` lines 20-29) after `JSON.parse`: `obj.progress || 0` and
`obj.text || ''` interpolated into the bar text. -/
def bngProgressText (v : JsValue) : String :=
  let p := jsOrDefault (jsField v "progress") (.num 0)
  let t := jsOrDefault (jsField v "text") (.str "")
  jsDisplay p ++ "% - " ++ jsDisplay t

/-- One delivery on the `bng_progress` channel (`main.ts` lines 20-29).
The payload string goes through `JSON.parse` inside `try`; `parsed` is
its result, `none` when it throws.  The `catch(e) {}` clause swallows
the failure, so the bar text (the only state the handler touches,
`none` when the `progressbar` element is absent) is left unchanged; on
a parsed payload the bar text is rewritten when the element exists. -/
def bngProgressStep (parsed : Option JsValue) (bar : Option String) : Option String :=
  match parsed with
  | none => bar
  | some v =>
    match bar with
    | none => none
    | some _ => some (bngProgressText v)

/-- The composed `App` + `MapSelector` state: `MapSelector` holds the
selection cells, `App` holds the aggregate view state, and the only
link between them is the `onBoundsChange={setBbox}` callback
(`App.tsx` line 150). -/
structure SystemState where
  selector : SelectorState
  app : AppState
deriving DecidableEq, Repr

/-- A map click at system level: the selector handler runs, and when it
emits a bounding box the `setBbox` callback stores it in the app
state. -/
def systemClick (s : SystemState) (p : Point) : SystemState :=
  let r := mapClick s.selector p
  match r.2 with
  | none => { s with selector := r.1 }
  | some b => { selector := r.1, app := { s.app with bbox := some b } }

/-- The reset button at system level: `resetSelection` clears the two
selector cells; no callback fires, so the app state is untouched. -/
def systemReset (s : SystemState) : SystemState :=
  { s with selector := resetSelection s.selector }

/-! Helper lemmas about the bounding-box construction. -/

lemma mkBoundingBox_lat_le (p0 p1 : Point) :
    (mkBoundingBox p0 p1).min_lat ≤ (mkBoundingBox p0 p1).max_lat :=
  le_trans (min_le_left _ _) (le_max_left _ _)

lemma mkBoundingBox_lng_le (p0 p1 : Point) :
    (mkBoundingBox p0 p1).min_lng ≤ (mkBoundingBox p0 p1).max_lng :=
  le_trans (min_le_left _ _) (le_max_left _ _)

lemma mkBoundingBox_comm (p0 p1 : Point) :
    mkBoundingBox p0 p1 = mkBoundingBox p1 p0 := by
  simp [mkBoundingBox, min_comm, max_comm]

/-! Sample states used by the witnesses. -/

def sampleProgress : GenerationProgress := { stage := "", progress := 0 }

def sampleBox : BoundingBox :=
  { min_lat := 10, min_lng := 5, max_lat := 30, max_lng := 20 }

def emptyAppState : AppState :=
  { bbox := none, outputPath := "", isGenerating := false,
    progress := sampleProgress, result := "" }

def readyAppState : AppState :=
  { bbox := some sampleBox, outputPath := "/tmp/out", isGenerating := false,
    progress := sampleProgress, result := "" }

/-- Claim C1: with both a bounding box and an output path present,
`generateTerrain` immediately sets `isGenerating`, clears the prior
result, issues exactly one `generate_terrain` command with arguments
`{bbox, outputPath}` and no alert; when the command resolves with `m`
the result becomes `m` (the success outcome) with `isGenerating`
false, and when it rejects with `e` the result becomes the stringified
error under the failure marker, with `isGenerating` false — in both
terminal cases `isGenerating` is false. -/
theorem generate_valid_flow (s : AppState) (b : BoundingBox)
    (hb : s.bbox = some b) (hp : s.outputPath ≠ "") :
    (generateTerrainStart s).1.isGenerating = true ∧
    (generateTerrainStart s).1.result = "" ∧
    (generateTerrainStart s).2.1 =
      some { cmd := "generate_terrain", bbox := b, outputPath := s.outputPath } ∧
    (generateTerrainStart s).2.2 = false ∧
    (∀ m, (generateTerrainSettle (generateTerrainStart s).1 (.ok m)).result = m ∧
          (generateTerrainSettle (generateTerrainStart s).1 (.ok m)).isGenerating = false) ∧
    (∀ e, (generateTerrainSettle (generateTerrainStart s).1 (.error e)).result =
            "Ошибка: " ++ e ∧
          (generateTerrainSettle (generateTerrainStart s).1 (.error e)).isGenerating = false) := by
  simp [generateTerrainStart, generateTerrainSettle, hb, hp]

theorem generate_valid_flow_witness :
    (generateTerrainStart readyAppState).2.1 =
      some { cmd := "generate_terrain", bbox := sampleBox, outputPath := "/tmp/out" } :=
  (generate_valid_flow readyAppState sampleBox rfl (by decide)).2.2.1

/-- Claim C2: when the bounding box or the output path is absent,
`generateTerrain` shows the precondition alert, issues no backend
command, and returns the app state exactly as it was — in particular
`isGenerating` and the prior result are untouched. -/
theorem generate_precondition_atomic (s : AppState)
    (h : s.bbox = none ∨ s.outputPath = "") :
    generateTerrainStart s = (s, none, true) := by
  rcases h with h | h
  · simp [generateTerrainStart, h]
  · cases hb : s.bbox with
    | none => simp [generateTerrainStart, hb]
    | some b => simp [generateTerrainStart, hb, h]

theorem generate_precondition_atomic_witness :
    generateTerrainStart emptyAppState = (emptyAppState, none, true) :=
  generate_precondition_atomic emptyAppState (Or.inl rfl)

/-- Claim C3: a progress payload undecodable as `GenerationProgress`
produces no state change in the app state (neither `progress` nor
`isGenerating` nor `result`) and no surfaced error; likewise the
alternate frontend's `bng_progress` listener leaves the bar unchanged
when `JSON.parse` throws, the failure being swallowed by its empty
`catch`. -/
theorem undecodable_progress_dropped :
    (∀ (s : AppState) (v : JsValue),
        decodeGenerationProgress v = none → appProgressEvent s v = s) ∧
    (∀ bar : Option String, bngProgressStep none bar = bar) := by
  constructor
  · intro s v h
    simp [appProgressEvent, h]
  · intro bar
    rfl

theorem undecodable_progress_dropped_witness :
    appProgressEvent emptyAppState (JsValue.str "oops") = emptyAppState :=
  undecodable_progress_dropped.1 emptyAppState (JsValue.str "oops") rfl

/-- Claim C4: a click while exactly the first point `p0` is captured
stores the clicked point `p1` as the second point (the selection is
then complete) and emits, once, the bounding box built from the
element-wise min/max of `p0` and `p1`. -/
theorem second_click_bbox (s : SelectorState) (p0 p1 : Point)
    (h0 : s.selectionStart = some p0) (h1 : s.selectionEnd = none) :
    mapClick s p1 =
      ({ selectionStart := some p0, selectionEnd := some p1 },
       some { min_lat := min p0.lat p1.lat, min_lng := min p0.lng p1.lng,
              max_lat := max p0.lat p1.lat, max_lng := max p0.lng p1.lng }) := by
  obtain ⟨a, b⟩ := s
  obtain rfl : a = some p0 := h0
  obtain rfl : b = none := h1
  rfl

theorem second_click_bbox_witness :
    mapClick { selectionStart := some { lat := 10, lng := 20 }, selectionEnd := none }
        { lat := 30, lng := 5 } =
      ({ selectionStart := some { lat := 10, lng := 20 },
         selectionEnd := some { lat := 30, lng := 5 } },
       some { min_lat := 10, min_lng := 5, max_lat := 30, max_lng := 20 }) := by
  rw [second_click_bbox
    { selectionStart := some { lat := 10, lng := 20 }, selectionEnd := none }
    { lat := 10, lng := 20 } { lat := 30, lng := 5 } rfl rfl]
  decide

/-- Claim C5: every bounding box built from two clicks satisfies
`min_lat ≤ max_lat` and `min_lng ≤ max_lng`, swapping the two clicks
yields the same box, and every box the click handler ever emits (the
only construction in the component) satisfies the invariant. -/
theorem bbox_invariant_commutative :
    (∀ p0 p1 : Point,
        (mkBoundingBox p0 p1).min_lat ≤ (mkBoundingBox p0 p1).max_lat ∧
        (mkBoundingBox p0 p1).min_lng ≤ (mkBoundingBox p0 p1).max_lng ∧
        mkBoundingBox p0 p1 = mkBoundingBox p1 p0) ∧
    (∀ (s : SelectorState) (p : Point) (bb : BoundingBox),
        (mapClick s p).2 = some bb →
        bb.min_lat ≤ bb.max_lat ∧ bb.min_lng ≤ bb.max_lng) := by
  constructor
  · intro p0 p1
    exact ⟨mkBoundingBox_lat_le p0 p1, mkBoundingBox_lng_le p0 p1, mkBoundingBox_comm p0 p1⟩
  · intro s p bb h
    obtain ⟨a, b⟩ := s
    cases a with
    | none => simp [mapClick] at h
    | some p0 =>
      cases b with
      | none =>
        simp only [mapClick, Option.some.injEq] at h
        exact h ▸ ⟨mkBoundingBox_lat_le p0 p, mkBoundingBox_lng_le p0 p⟩
      | some _ => simp [mapClick] at h

theorem bbox_invariant_commutative_witness :
    sampleBox.min_lat ≤ sampleBox.max_lat ∧ sampleBox.min_lng ≤ sampleBox.max_lng :=
  bbox_invariant_commutative.2
    { selectionStart := some { lat := 10, lng := 20 }, selectionEnd := none }
    { lat := 30, lng := 5 } sampleBox (by decide)

/-- Claim C6: a click delivered while both selection points are
captured (the selection is complete) is ignored: the selector state is
returned unchanged and nothing is emitted to the consumer. -/
theorem third_click_ignored (s : SelectorState) (p q0 q1 : Point)
    (h0 : s.selectionStart = some q0) (h1 : s.selectionEnd = some q1) :
    mapClick s p = (s, none) := by
  obtain ⟨a, b⟩ := s
  obtain rfl : a = some q0 := h0
  obtain rfl : b = some q1 := h1
  rfl

theorem third_click_ignored_witness :
    mapClick { selectionStart := some { lat := 10, lng := 20 },
               selectionEnd := some { lat := 30, lng := 5 } }
        { lat := 1, lng := 2 } =
      ({ selectionStart := some { lat := 10, lng := 20 },
         selectionEnd := some { lat := 30, lng := 5 } }, none) :=
  third_click_ignored _ { lat := 1, lng := 2 }
    { lat := 10, lng := 20 } { lat := 30, lng := 5 } rfl rfl

/-- Claim C7: the generate button is disabled exactly when the bounding
box is absent, or the output path is absent (the empty string), or a
generation is in flight. -/
theorem generate_disabled_iff (s : AppState) :
    generateButtonDisabled s = true ↔
      s.bbox = none ∨ s.outputPath = "" ∨ s.isGenerating = true := by
  simp [generateButtonDisabled, Option.isNone_iff_eq_none, or_assoc]

/-- Claim C8: a well-formed progress event updates only the `progress`
cell — `isGenerating`, `result`, `bbox` and `outputPath` all keep their
values — and in particular an event delivered after the generation
command has settled leaves `isGenerating` false and the terminal result
intact. -/
theorem progress_event_frame (s : AppState) (p : GenerationProgress) :
    (onGenerationProgress s p).progress = p ∧
    (onGenerationProgress s p).isGenerating = s.isGenerating ∧
    (onGenerationProgress s p).result = s.result ∧
    (onGenerationProgress s p).bbox = s.bbox ∧
    (onGenerationProgress s p).outputPath = s.outputPath ∧
    (∀ r, (onGenerationProgress (generateTerrainSettle s r) p).isGenerating = false ∧
          (onGenerationProgress (generateTerrainSettle s r) p).result =
            (generateTerrainSettle s r).result) := by
  refine ⟨rfl, rfl, rfl, rfl, rfl, ?_⟩
  intro r
  cases r <;> exact ⟨rfl, rfl⟩

/-- Claim C9: `resetSelection` yields the empty selection from any
selector state, and a click in the empty selection captures exactly the
clicked point as the first point, with no emission. -/
theorem reset_and_first_click (s : SelectorState) (p : Point) :
    resetSelection s = { selectionStart := none, selectionEnd := none } ∧
    mapClick { selectionStart := none, selectionEnd := none } p =
      ({ selectionStart := some p, selectionEnd := none }, none) :=
  ⟨rfl, rfl⟩

/-- Claim C10: resetting the selection leaves the whole app state — in
particular the last completed bounding box — untouched, so the generate
button's disabled flag is unchanged; when a box and a path are present
and nothing is in flight, the button stays enabled after reset and a
generation issued then carries the pre-reset bounding box. -/
theorem reset_preserves_app_state (s : SystemState) :
    (systemReset s).app = s.app ∧
    generateButtonDisabled (systemReset s).app = generateButtonDisabled s.app ∧
    (∀ b : BoundingBox, s.app.bbox = some b → s.app.outputPath ≠ "" →
      s.app.isGenerating = false →
      generateButtonDisabled (systemReset s).app = false ∧
      (generateTerrainStart (systemReset s).app).2.1 =
        some { cmd := "generate_terrain", bbox := b, outputPath := s.app.outputPath }) := by
  refine ⟨rfl, rfl, ?_⟩
  intro b hb hp hg
  constructor
  · simp [systemReset, generateButtonDisabled, hb, hp, hg]
  · simp [systemReset, generateTerrainStart, hb, hp]

def readySystem : SystemState :=
  { selector := { selectionStart := some { lat := 10, lng := 20 },
                  selectionEnd := some { lat := 30, lng := 5 } },
    app := readyAppState }

theorem reset_preserves_app_state_witness :
    (systemReset readySystem).app = readySystem.app ∧
    (generateTerrainStart (systemReset readySystem).app).2.1 =
      some { cmd := "generate_terrain", bbox := sampleBox, outputPath := "/tmp/out" } :=
  ⟨(reset_preserves_app_state readySystem).1,
   ((reset_preserves_app_state readySystem).2.2 sampleBox rfl (by decide) rfl).2⟩
